import Mathlib

/-!
Verification of `windows/flutter/generated_plugin_registrant.cc`.

The file defines a single function

  void RegisterPlugins(flutter::PluginRegistry* registry)

consisting of eight straight-line statements, each of the form

  XxxRegisterWithRegistrar(registry->GetRegistrarForPlugin("Xxx"));

We embed the function shallowly.  The registry is abstracted as a function
from plugin names to registrar handles of an arbitrary type `H`
(`GetRegistrarForPlugin`), and a run of the function is represented by the
trace of external calls it makes, in C++ evaluation order: for each
statement, the argument (the `GetRegistrarForPlugin` lookup) is evaluated
before the outer registration call.
-/

namespace GeneratedPluginRegistrant

/-- An external call observed during a run of `RegisterPlugins`, together
with the value flowing through it: a `GetRegistrarForPlugin` lookup on the
registry recording its result handle, or an invocation of one of the
plugins' `Register...WithRegistrar` entry points recording the handle
passed as argument. -/
inductive Event (H : Type) where
  | getRegistrarForPlugin (name : String) (result : H)
  | registerWithRegistrar (entryPoint : String) (arg : H)
deriving DecidableEq, Repr

/-- The body of `RegisterPlugins`, statement by statement.  Each of the
eight source statements contributes two events: the registry lookup for a
plugin name and the registration call receiving that lookup's result. -/
def RegisterPlugins (H : Type) (registry : String → H) : List (Event H) :=
  [ Event.getRegistrarForPlugin "FileSelectorWindows"
      (registry "FileSelectorWindows"),
    Event.registerWithRegistrar "FileSelectorWindowsRegisterWithRegistrar"
      (registry "FileSelectorWindows"),
    Event.getRegistrarForPlugin "FlutterSecureStorageWindowsPlugin"
      (registry "FlutterSecureStorageWindowsPlugin"),
    Event.registerWithRegistrar "FlutterSecureStorageWindowsPluginRegisterWithRegistrar"
      (registry "FlutterSecureStorageWindowsPlugin"),
    Event.getRegistrarForPlugin "FlutterTimezonePluginCApi"
      (registry "FlutterTimezonePluginCApi"),
    Event.registerWithRegistrar "FlutterTimezonePluginCApiRegisterWithRegistrar"
      (registry "FlutterTimezonePluginCApi"),
    Event.getRegistrarForPlugin "MediaKitVideoPluginCApi"
      (registry "MediaKitVideoPluginCApi"),
    Event.registerWithRegistrar "MediaKitVideoPluginCApiRegisterWithRegistrar"
      (registry "MediaKitVideoPluginCApi"),
    Event.getRegistrarForPlugin "PermissionHandlerWindowsPlugin"
      (registry "PermissionHandlerWindowsPlugin"),
    Event.registerWithRegistrar "PermissionHandlerWindowsPluginRegisterWithRegistrar"
      (registry "PermissionHandlerWindowsPlugin"),
    Event.getRegistrarForPlugin "SimpleAnimationProgressBarPluginCApi"
      (registry "SimpleAnimationProgressBarPluginCApi"),
    Event.registerWithRegistrar "SimpleAnimationProgressBarPluginCApiRegisterWithRegistrar"
      (registry "SimpleAnimationProgressBarPluginCApi"),
    Event.getRegistrarForPlugin "UrlLauncherWindows"
      (registry "UrlLauncherWindows"),
    Event.registerWithRegistrar "UrlLauncherWindowsRegisterWithRegistrar"
      (registry "UrlLauncherWindows"),
    Event.getRegistrarForPlugin "VolumeControllerPluginCApi"
      (registry "VolumeControllerPluginCApi"),
    Event.registerWithRegistrar "VolumeControllerPluginCApiRegisterWithRegistrar"
      (registry "VolumeControllerPluginCApi") ]

/-- The eight plugin-name strings passed to `GetRegistrarForPlugin`, in
textual order of the source statements. -/
def pluginNames : List String :=
  [ "FileSelectorWindows",
    "FlutterSecureStorageWindowsPlugin",
    "FlutterTimezonePluginCApi",
    "MediaKitVideoPluginCApi",
    "PermissionHandlerWindowsPlugin",
    "SimpleAnimationProgressBarPluginCApi",
    "UrlLauncherWindows",
    "VolumeControllerPluginCApi" ]

/-- The eight plugin registration entry points, in textual order of the
source statements. -/
def entryPoints : List String :=
  [ "FileSelectorWindowsRegisterWithRegistrar",
    "FlutterSecureStorageWindowsPluginRegisterWithRegistrar",
    "FlutterTimezonePluginCApiRegisterWithRegistrar",
    "MediaKitVideoPluginCApiRegisterWithRegistrar",
    "PermissionHandlerWindowsPluginRegisterWithRegistrar",
    "SimpleAnimationProgressBarPluginCApiRegisterWithRegistrar",
    "UrlLauncherWindowsRegisterWithRegistrar",
    "VolumeControllerPluginCApiRegisterWithRegistrar" ]

/-- The name looked up by a lookup event, if the event is one. -/
def lookupName {H : Type} : Event H → Option String
  | Event.getRegistrarForPlugin n _ => some n
  | Event.registerWithRegistrar _ _ => none

/-- The entry point invoked by a registration event, if the event is one. -/
def registerEntry {H : Type} : Event H → Option String
  | Event.getRegistrarForPlugin _ _ => none
  | Event.registerWithRegistrar e _ => some e

/-- The sequence of plugin names looked up in a trace, in order. -/
def lookupNames {H : Type} (t : List (Event H)) : List String :=
  t.filterMap lookupName

/-- The sequence of registration entry points invoked in a trace, in order. -/
def registerEntries {H : Type} (t : List (Event H)) : List String :=
  t.filterMap registerEntry

/-- `true` exactly on lookup events; used to describe the alternating shape
of the trace. -/
def isLookup {H : Type} : Event H → Bool
  | Event.getRegistrarForPlugin _ _ => true
  | Event.registerWithRegistrar _ _ => false

/-- The sixteen external call sites of `RegisterPlugins`, in execution
order, abstracting away the values that flow through them.  Used to reason
about error propagation: the function examines no call's result, so a run
is just the calls performed in order. -/
inductive Call where
  | getRegistrarForPlugin (name : String)
  | registerWithRegistrar (entryPoint : String)
deriving DecidableEq, Repr

/-- The call sites of `RegisterPlugins` in execution order. -/
def callSequence : List Call :=
  [ Call.getRegistrarForPlugin "FileSelectorWindows",
    Call.registerWithRegistrar "FileSelectorWindowsRegisterWithRegistrar",
    Call.getRegistrarForPlugin "FlutterSecureStorageWindowsPlugin",
    Call.registerWithRegistrar "FlutterSecureStorageWindowsPluginRegisterWithRegistrar",
    Call.getRegistrarForPlugin "FlutterTimezonePluginCApi",
    Call.registerWithRegistrar "FlutterTimezonePluginCApiRegisterWithRegistrar",
    Call.getRegistrarForPlugin "MediaKitVideoPluginCApi",
    Call.registerWithRegistrar "MediaKitVideoPluginCApiRegisterWithRegistrar",
    Call.getRegistrarForPlugin "PermissionHandlerWindowsPlugin",
    Call.registerWithRegistrar "PermissionHandlerWindowsPluginRegisterWithRegistrar",
    Call.getRegistrarForPlugin "SimpleAnimationProgressBarPluginCApi",
    Call.registerWithRegistrar "SimpleAnimationProgressBarPluginCApiRegisterWithRegistrar",
    Call.getRegistrarForPlugin "UrlLauncherWindows",
    Call.registerWithRegistrar "UrlLauncherWindowsRegisterWithRegistrar",
    Call.getRegistrarForPlugin "VolumeControllerPluginCApi",
    Call.registerWithRegistrar "VolumeControllerPluginCApiRegisterWithRegistrar" ]

/-- Run a list of external calls against a handler that may fail.  The
body of `RegisterPlugins` contains no error branch, so a failure of any
call aborts the run and is returned to the caller unchanged. -/
def runCalls {ε : Type} (handler : Call → Except ε Unit) : List Call → Except ε Unit
  | [] => Except.ok ()
  | c :: rest =>
    match handler c with
    | Except.error e => Except.error e
    | Except.ok _ => runCalls handler rest

/-- `RegisterPlugins` viewed as a run of its sixteen external calls against
a possibly failing environment. -/
def RegisterPluginsRun {ε : Type} (handler : Call → Except ε Unit) : Except ε Unit :=
  runCalls handler callSequence

/-- `RegisterPlugins` with the ambient program state `σ` made explicit.
Each external call may transform the state; the function itself merely
sequences the sixteen calls, statement by statement as in the source, and
touches no state of its own. -/
def RegisterPluginsSt (σ H : Type)
    (getRegistrarForPlugin : String → σ → H × σ)
    (registerWithRegistrar : String → H → σ → σ) (s0 : σ) : σ :=
  let p1 := getRegistrarForPlugin "FileSelectorWindows" s0
  let s1 := registerWithRegistrar "FileSelectorWindowsRegisterWithRegistrar" p1.1 p1.2
  let p2 := getRegistrarForPlugin "FlutterSecureStorageWindowsPlugin" s1
  let s2 := registerWithRegistrar "FlutterSecureStorageWindowsPluginRegisterWithRegistrar" p2.1 p2.2
  let p3 := getRegistrarForPlugin "FlutterTimezonePluginCApi" s2
  let s3 := registerWithRegistrar "FlutterTimezonePluginCApiRegisterWithRegistrar" p3.1 p3.2
  let p4 := getRegistrarForPlugin "MediaKitVideoPluginCApi" s3
  let s4 := registerWithRegistrar "MediaKitVideoPluginCApiRegisterWithRegistrar" p4.1 p4.2
  let p5 := getRegistrarForPlugin "PermissionHandlerWindowsPlugin" s4
  let s5 := registerWithRegistrar "PermissionHandlerWindowsPluginRegisterWithRegistrar" p5.1 p5.2
  let p6 := getRegistrarForPlugin "SimpleAnimationProgressBarPluginCApi" s5
  let s6 := registerWithRegistrar "SimpleAnimationProgressBarPluginCApiRegisterWithRegistrar" p6.1 p6.2
  let p7 := getRegistrarForPlugin "UrlLauncherWindows" s6
  let s7 := registerWithRegistrar "UrlLauncherWindowsRegisterWithRegistrar" p7.1 p7.2
  let p8 := getRegistrarForPlugin "VolumeControllerPluginCApi" s7
  let s8 := registerWithRegistrar "VolumeControllerPluginCApiRegisterWithRegistrar" p8.1 p8.2
  s8

/-- A `GetRegistrarForPlugin` lookup through the `registry` pointer
parameter.  The C++ call `registry->GetRegistrarForPlugin(name)`
dereferences the pointer without a null check; a null pointer is the error
branch of the embedding. -/
def derefGetRegistrar (H : Type) (registry : Option (String → H))
    (name : String) : Except Unit H :=
  match registry with
  | none => Except.error ()
  | some r => Except.ok (r name)

/-- `RegisterPlugins` with the registry parameter modelled as a possibly
null pointer: every one of the eight lookups dereferences it. -/
def RegisterPluginsPtr (H : Type) (registry : Option (String → H)) :
    Except Unit (List (Event H)) := do
  let h1 ← derefGetRegistrar H registry "FileSelectorWindows"
  let h2 ← derefGetRegistrar H registry "FlutterSecureStorageWindowsPlugin"
  let h3 ← derefGetRegistrar H registry "FlutterTimezonePluginCApi"
  let h4 ← derefGetRegistrar H registry "MediaKitVideoPluginCApi"
  let h5 ← derefGetRegistrar H registry "PermissionHandlerWindowsPlugin"
  let h6 ← derefGetRegistrar H registry "SimpleAnimationProgressBarPluginCApi"
  let h7 ← derefGetRegistrar H registry "UrlLauncherWindows"
  let h8 ← derefGetRegistrar H registry "VolumeControllerPluginCApi"
  return [
    Event.getRegistrarForPlugin "FileSelectorWindows" h1,
    Event.registerWithRegistrar "FileSelectorWindowsRegisterWithRegistrar" h1,
    Event.getRegistrarForPlugin "FlutterSecureStorageWindowsPlugin" h2,
    Event.registerWithRegistrar "FlutterSecureStorageWindowsPluginRegisterWithRegistrar" h2,
    Event.getRegistrarForPlugin "FlutterTimezonePluginCApi" h3,
    Event.registerWithRegistrar "FlutterTimezonePluginCApiRegisterWithRegistrar" h3,
    Event.getRegistrarForPlugin "MediaKitVideoPluginCApi" h4,
    Event.registerWithRegistrar "MediaKitVideoPluginCApiRegisterWithRegistrar" h4,
    Event.getRegistrarForPlugin "PermissionHandlerWindowsPlugin" h5,
    Event.registerWithRegistrar "PermissionHandlerWindowsPluginRegisterWithRegistrar" h5,
    Event.getRegistrarForPlugin "SimpleAnimationProgressBarPluginCApi" h6,
    Event.registerWithRegistrar "SimpleAnimationProgressBarPluginCApiRegisterWithRegistrar" h6,
    Event.getRegistrarForPlugin "UrlLauncherWindows" h7,
    Event.registerWithRegistrar "UrlLauncherWindowsRegisterWithRegistrar" h7,
    Event.getRegistrarForPlugin "VolumeControllerPluginCApi" h8,
    Event.registerWithRegistrar "VolumeControllerPluginCApiRegisterWithRegistrar" h8 ]

/-- The lookup event at the head of each statement pair is immediately
followed by a registration event whose argument is that lookup's result. -/
def Paired {H : Type} : List (Event H) → Prop
  | [] => True
  | Event.getRegistrarForPlugin _ h :: Event.registerWithRegistrar _ g :: t =>
      h = g ∧ Paired t
  | _ => False

/-- A run of a call list succeeds when every call in it succeeds. -/
theorem runCalls_ok_of_all_ok {ε : Type} (handler : Call → Except ε Unit)
    (l : List Call) (h : ∀ c ∈ l, handler c = Except.ok ()) :
    runCalls handler l = Except.ok () := by
  induction l with
  | nil => rfl
  | cons c rest ih =>
    have hc : handler c = Except.ok () := h c (List.mem_cons_self c rest)
    simp only [runCalls, hc]
    exact ih fun d hd => h d (List.mem_cons_of_mem c hd)

/-- An error result of a run of a call list is the error of some call in
the list, unchanged. -/
theorem runCalls_error_mem {ε : Type} (handler : Call → Except ε Unit)
    (l : List Call) (e : ε) (h : runCalls handler l = Except.error e) :
    ∃ c ∈ l, handler c = Except.error e := by
  induction l with
  | nil => exact absurd h (by simp [runCalls])
  | cons c rest ih =>
    cases hc : handler c with
    | error e₂ =>
      refine ⟨c, List.mem_cons_self c rest, ?_⟩
      simp only [runCalls, hc] at h
      cases h
      exact hc
    | ok u =>
      simp only [runCalls, hc] at h
      obtain ⟨d, hd, hde⟩ := ih h
      exact ⟨d, List.mem_cons_of_mem c hd, hde⟩

/-- If every call before a given call succeeds and that call fails, the
run of the whole list fails with exactly that call's error. -/
theorem runCalls_error_at {ε : Type} (handler : Call → Except ε Unit)
    (pre : List Call) (c : Call) (rest : List Call) (e : ε)
    (hpre : ∀ d ∈ pre, handler d = Except.ok ())
    (hc : handler c = Except.error e) :
    runCalls handler (pre ++ c :: rest) = Except.error e := by
  induction pre with
  | nil => simp [runCalls, hc]
  | cons d pre ih =>
    have hd : handler d = Except.ok () := hpre d (List.mem_cons_self d pre)
    simp only [List.cons_append, runCalls, hd]
    exact ih fun d₂ hd₂ => hpre d₂ (List.mem_cons_of_mem d hd₂)

/-- C1: for every registry argument, `RegisterPlugins` performs exactly
the fixed linear sequence of eight plugin registration calls, in the
textual order of the source statements, preceded each by its lookup; the
sequence of registration entry points is a constant list independent of
the registry, so nothing is skipped, repeated, or reordered. -/
theorem registerPlugins_fixed_registration_sequence
    (H : Type) (registry : String → H) :
    registerEntries (RegisterPlugins H registry) = entryPoints ∧
    lookupNames (RegisterPlugins H registry) = pluginNames :=
  ⟨rfl, rfl⟩

/-- C2: the trace of `RegisterPlugins` is exactly the concatenation, over
the eight (plugin name, entry point) pairs in textual order, of a lookup
of that name followed by a registration call whose argument is precisely
the handle that the registry returned for that same name; since the eight
names are pairwise distinct, no handle is reused for any other plugin. -/
theorem registerPlugins_registrar_per_plugin
    (H : Type) (registry : String → H) :
    RegisterPlugins H registry =
      ((pluginNames.zip entryPoints).map fun p =>
        [Event.getRegistrarForPlugin p.1 (registry p.1),
         Event.registerWithRegistrar p.2 (registry p.1)]).flatten ∧
    pluginNames.Nodup :=
  ⟨rfl, by decide⟩

/-- C3: within one run of `RegisterPlugins`, every string is looked up
via `GetRegistrarForPlugin` exactly once if it is one of the eight plugin
names and never otherwise, and every entry point is invoked exactly once
if it is one of the eight registration entry points and never otherwise;
in particular no name is ever looked up or registered a second time. -/
theorem registerPlugins_each_plugin_once
    (H : Type) (registry : String → H) (n e : String) :
    (lookupNames (RegisterPlugins H registry)).count n =
      (if n ∈ pluginNames then 1 else 0) ∧
    (registerEntries (RegisterPlugins H registry)).count e =
      (if e ∈ entryPoints then 1 else 0) := by
  have hl : lookupNames (RegisterPlugins H registry) = pluginNames := rfl
  have hr : registerEntries (RegisterPlugins H registry) = entryPoints := rfl
  rw [hl, hr]
  constructor
  · split_ifs with hn
    · exact List.count_eq_one_of_mem (by decide) hn
    · exact List.count_eq_zero_of_not_mem hn
  · split_ifs with he
    · exact List.count_eq_one_of_mem (by decide) he
    · exact List.count_eq_zero_of_not_mem he

/-- C4: `RegisterPlugins` handles no errors: a run against an environment
in which every call succeeds returns unit with no other result; any error
produced by a run is the error of one of the sixteen calls, unchanged; and
if the calls before some call succeed and that call fails, the run's
result is exactly that call's error, with no recovery. -/
theorem registerPlugins_error_propagation
    {ε : Type} (handler : Call → Except ε Unit) :
    ((∀ c ∈ callSequence, handler c = Except.ok ()) →
      RegisterPluginsRun handler = Except.ok ()) ∧
    (∀ e : ε, RegisterPluginsRun handler = Except.error e →
      ∃ c ∈ callSequence, handler c = Except.error e) ∧
    (∀ (pre : List Call) (c : Call) (rest : List Call) (e : ε),
      callSequence = pre ++ c :: rest →
      (∀ d ∈ pre, handler d = Except.ok ()) →
      handler c = Except.error e →
      RegisterPluginsRun handler = Except.error e) := by
  refine ⟨fun h => runCalls_ok_of_all_ok handler callSequence h,
    fun e h => runCalls_error_mem handler callSequence e h,
    fun pre c rest e hsplit hpre hc => ?_⟩
  unfold RegisterPluginsRun
  rw [hsplit]
  exact runCalls_error_at handler pre c rest e hpre hc

/-- Witness for C4: with an environment in which every call succeeds,
`RegisterPlugins` returns unit. -/
theorem registerPlugins_error_propagation_witness :
    RegisterPluginsRun (fun _ => (Except.ok () : Except Unit Unit)) =
      Except.ok () :=
  (registerPlugins_error_propagation fun _ => Except.ok ()).1 fun _ _ => rfl

/-- C5: the sequence of plugin-name lookups issued by `RegisterPlugins`
is the same constant list of eight names for any two registry arguments,
of any handle types; it depends neither on the registry nor on the handles
it returns. -/
theorem registerPlugins_lookups_registry_independent
    (H₁ H₂ : Type) (r₁ : String → H₁) (r₂ : String → H₂) :
    lookupNames (RegisterPlugins H₁ r₁) = lookupNames (RegisterPlugins H₂ r₂) ∧
    lookupNames (RegisterPlugins H₁ r₁) = pluginNames :=
  ⟨rfl, rfl⟩

/-- C6: `RegisterPlugins` owns no state: with the ambient state made
explicit, any state component preserved by both external calls is
preserved by the whole function, which merely sequences those calls. -/
theorem registerPlugins_frame (σ H α : Type)
    (getReg : String → σ → H × σ) (regW : String → H → σ → σ)
    (f : σ → α)
    (hget : ∀ n s, f (getReg n s).2 = f s)
    (hreg : ∀ n h s, f (regW n h s) = f s)
    (s : σ) :
    f (RegisterPluginsSt σ H getReg regW s) = f s := by
  simp only [RegisterPluginsSt, hget, hreg]

/-- Witness for C6: with a trivial handle type and external calls leaving
a numeric state unchanged, `RegisterPlugins` leaves the state at its
initial value. -/
theorem registerPlugins_frame_witness :
    RegisterPluginsSt Nat Unit (fun _ s => ((), s)) (fun _ _ s => s) 7 = 7 :=
  registerPlugins_frame Nat Unit Nat (fun _ s => ((), s)) (fun _ _ s => s)
    (fun s => s) (fun _ _ => rfl) (fun _ _ _ => rfl) 7

/-- C7: the eight plugin names passed to `GetRegistrarForPlugin` in one
run are in strictly increasing lexicographic order, hence pairwise
distinct: no plugin name is registered twice under the same name. -/
theorem registerPlugins_names_strictly_sorted
    (H : Type) (registry : String → H) :
    List.Pairwise (fun a b => a < b) (lookupNames (RegisterPlugins H registry)) ∧
    (lookupNames (RegisterPlugins H registry)).Nodup := by
  have hl : lookupNames (RegisterPlugins H registry) = pluginNames := rfl
  rw [hl]
  constructor
  · have h : List.Pairwise (fun a b : String => a.toList < b.toList) pluginNames := by
      decide
    exact h.imp fun hab => String.lt_iff_toList_lt.mpr hab
  · decide

/-- C8: `RegisterPlugins` is a total straight-line function: its trace
consists of exactly sixteen external calls, alternating lookups and
registrations — eight lookup events at the even positions, each
immediately followed by the registration event consuming that lookup's
result. -/
theorem registerPlugins_sixteen_calls (H : Type) (registry : String → H) :
    (RegisterPlugins H registry).length = 16 ∧
    (RegisterPlugins H registry).map isLookup =
      [true, false, true, false, true, false, true, false,
       true, false, true, false, true, false, true, false] ∧
    Paired (RegisterPlugins H registry) := by
  refine ⟨rfl, rfl, ?_⟩
  simp [RegisterPlugins, Paired]

/-- C9: the registry pointer is dereferenced with no null check, but
under the precondition that it is non-null, every lookup succeeds and
`RegisterPlugins` completes with its full trace: the error branch of the
dereference is unreachable. -/
theorem registerPlugins_nonnull_no_failure
    (H : Type) (registry : Option (String → H)) (r : String → H)
    (h : registry = some r) :
    RegisterPluginsPtr H registry = Except.ok (RegisterPlugins H r) := by
  subst h
  rfl

/-- Witness for C9: a concrete non-null registry, on which the pointer
variant returns the full trace. -/
theorem registerPlugins_nonnull_no_failure_witness :
    RegisterPluginsPtr Unit (some fun _ => ()) =
      Except.ok (RegisterPlugins Unit fun _ => ()) :=
  registerPlugins_nonnull_no_failure Unit (some fun _ => ()) (fun _ => ()) rfl

end GeneratedPluginRegistrant
